import Mathlib

/-!
Verification of the attribute-extraction pipeline of the RAG_interface
repository: response normalization (llm_interface._invoke_chain_and_process),
result classification and badge coloring (app.py extraction loop), prompt
composition (create_pdf_extraction_chain / create_web_extraction_chain),
batch sequencing and pacing (app.py), and the module-level name bindings of
config.py / llm_interface.py that decide importability.

Text is modelled as a list of characters; Python string primitives
(find, rfind, strip, startswith, endswith, lower, slicing) are embedded as
executable functions on lists; json.loads is modelled by a fuelled
recursive-descent JSON reader returning an optional value tree.
-/

set_option maxRecDepth 100000

namespace Rag

/-- Python text modelled as a list of characters. -/
abbrev Str := List Char

/-- Conversion from a Lean string literal to the model of Python text. -/
def lit (s : String) : Str := s.toList

/-- The characters Python's str.strip removes: space, and the five control
characters tab through carriage return (code points 9 to 13). -/
def isPySpace (c : Char) : Bool :=
  c.toNat == 32 || (9 ≤ c.toNat && c.toNat ≤ 13)

/-- Python str.lstrip. -/
def pyLstrip (s : Str) : Str := s.dropWhile isPySpace

/-- Python str.rstrip. -/
def pyRstrip (s : Str) : Str := (s.reverse.dropWhile isPySpace).reverse

/-- Python str.strip. -/
def pyStrip (s : Str) : Str := pyRstrip (pyLstrip s)

/-- Python str.startswith. -/
def pyStartsWith : Str → Str → Bool
  | [], _ => true
  | _ :: _, [] => false
  | p :: ps, c :: cs => p == c && pyStartsWith ps cs

/-- Python str.endswith. -/
def pyEndsWith (pat s : Str) : Bool := pyStartsWith pat.reverse s.reverse

/-- Python str.lower (ASCII case folding, as in the repository's data). -/
def pyLower (s : Str) : Str := s.map Char.toLower

/-- Python str.find for a pattern: index of the first occurrence. -/
def findSub (pat : Str) : Str → Option Nat
  | [] => if pat.isEmpty then some 0 else none
  | c :: cs =>
    if pyStartsWith pat (c :: cs) then some 0
    else (findSub pat cs).map (· + 1)

/-- Python's substring membership test (the `in` operator on strings). -/
def containsSub (hay pat : Str) : Bool := (findSub pat hay).isSome

/-- Python str.find for a single character. -/
def findCharIdx (c : Char) : Str → Option Nat
  | [] => none
  | d :: rest => if d == c then some 0 else (findCharIdx c rest).map (· + 1)

/-- Python str.rfind for a single character: index of the last occurrence. -/
def rfindCharIdx (c : Char) (s : Str) : Option Nat :=
  (findCharIdx c s.reverse).map (fun i => s.length - 1 - i)

/-- Values produced by json.loads, keeping object member order. -/
inductive Json where
  | null : Json
  | bool : Bool → Json
  | num : Str → Json
  | str : Str → Json
  | arr : List Json → Json
  | obj : List (Str × Json) → Json
deriving Repr

/-- JSON whitespace accepted between tokens by json.loads: space, tab,
line feed, carriage return. -/
def isJsonWs (c : Char) : Bool :=
  c.toNat == 32 || c.toNat == 9 || c.toNat == 10 || c.toNat == 13

/-- Skip JSON whitespace. -/
def skipWs (s : Str) : Str := s.dropWhile isJsonWs

/-- Value of one hexadecimal digit, if any (digits, then lowercase a to f
at code points 97 to 102, then uppercase A to F at 65 to 70). -/
def hexVal (c : Char) : Option Nat :=
  let n := c.toNat
  if 48 ≤ n ∧ n ≤ 57 then some (n - 48)
  else if 97 ≤ n ∧ n ≤ 102 then some (n - 87)
  else if 65 ≤ n ∧ n ≤ 70 then some (n - 55)
  else none

/-- The single-character escapes of a JSON string: the three self-escaping
characters, and the letters naming backspace, form feed, line feed,
carriage return and tab. -/
def escChar (e : Char) : Option Char :=
  if e = '"' ∨ e = '/' ∨ e = '\\' then some e
  else if e = 'n' then some (Char.ofNat 10)
  else if e = 't' then some (Char.ofNat 9)
  else if e = 'r' then some (Char.ofNat 13)
  else if e = 'b' then some (Char.ofNat 8)
  else if e = 'f' then some (Char.ofNat 12)
  else none

/-- Body of a JSON string after the opening quote; returns the decoded
characters and the remaining input. Control characters are rejected, as by
json.loads in its default strict mode. -/
def parseStrBody : Nat → Str → Option (Str × Str)
  | 0, _ => none
  | _, [] => none
  | fuel + 1, c :: rest =>
    if c = '"' then some ([], rest)
    else if c = '\\' then
      match rest with
      | 'u' :: h1 :: h2 :: h3 :: h4 :: rest3 =>
        match hexVal h1, hexVal h2, hexVal h3, hexVal h4 with
        | some a, some b, some x, some y =>
          (parseStrBody fuel rest3).map
            (fun p => (Char.ofNat (((a * 16 + b) * 16 + x) * 16 + y) :: p.1, p.2))
        | _, _, _, _ => none
      | e :: rest2 =>
        match escChar e with
        | some d => (parseStrBody fuel rest2).map (fun p => (d :: p.1, p.2))
        | none => none
      | [] => none
    else if c.toNat < 32 then none
    else (parseStrBody fuel rest).map (fun p => (c :: p.1, p.2))

/-- Fraction and exponent tail of a JSON number; returns the lexeme tail. -/
def parseFracExp (s : Str) : Option (Str × Str) :=
  let step1 : Option (Str × Str) :=
    match s with
    | '.' :: t =>
      match t with
      | c :: _ =>
        if c.isDigit then
          some ('.' :: t.takeWhile Char.isDigit, t.dropWhile Char.isDigit)
        else none
      | [] => none
    | _ => some ([], s)
  match step1 with
  | none => none
  | some (fr, r1) =>
    match r1 with
    | e :: t1 =>
      if e == 'e' || e == 'E' then
        let (sgn, t2) : Str × Str :=
          match t1 with
          | '+' :: u => (['+'], u)
          | '-' :: u => (['-'], u)
          | _ => ([], t1)
        match t2 with
        | c :: _ =>
          if c.isDigit then
            some (fr ++ e :: sgn ++ t2.takeWhile Char.isDigit, t2.dropWhile Char.isDigit)
          else none
        | [] => none
      else some (fr, r1)
    | [] => some (fr, r1)

/-- A JSON number lexeme (strict grammar of json.loads). -/
def parseNumber (s : Str) : Option (Str × Str) :=
  let (sign, s1) : Str × Str :=
    match s with
    | '-' :: t => (['-'], t)
    | _ => ([], s)
  match s1 with
  | [] => none
  | c :: t =>
    if c == '0' then
      (parseFracExp t).map (fun p => (sign ++ '0' :: p.1, p.2))
    else if c.isDigit then
      (parseFracExp (t.dropWhile Char.isDigit)).map
        (fun p => (sign ++ c :: t.takeWhile Char.isDigit ++ p.1, p.2))
    else none

mutual

/-- One JSON value (recursive descent of json.loads, fuelled). -/
def parseValue : Nat → Str → Option (Json × Str)
  | 0, _ => none
  | fuel + 1, s =>
    match skipWs s with
    | [] => none
    | c :: rest =>
      if c == '"' then (parseStrBody fuel rest).map (fun p => (Json.str p.1, p.2))
      else if c == '\x7b' then
        match skipWs rest with
        | '\x7d' :: r2 => some (Json.obj [], r2)
        | _ => (parseMembers fuel rest).map (fun p => (Json.obj p.1, p.2))
      else if c == '[' then
        match skipWs rest with
        | ']' :: r2 => some (Json.arr [], r2)
        | _ => (parseElements fuel rest).map (fun p => (Json.arr p.1, p.2))
      else if pyStartsWith (lit "true") (c :: rest) then
        some (Json.bool true, (c :: rest).drop 4)
      else if pyStartsWith (lit "false") (c :: rest) then
        some (Json.bool false, (c :: rest).drop 5)
      else if pyStartsWith (lit "null") (c :: rest) then
        some (Json.null, (c :: rest).drop 4)
      else if pyStartsWith (lit "NaN") (c :: rest) then
        some (Json.num (lit "nan"), (c :: rest).drop 3)
      else if pyStartsWith (lit "Infinity") (c :: rest) then
        some (Json.num (lit "inf"), (c :: rest).drop 8)
      else if pyStartsWith (lit "-Infinity") (c :: rest) then
        some (Json.num (lit "-inf"), (c :: rest).drop 9)
      else (parseNumber (c :: rest)).map (fun p => (Json.num p.1, p.2))

/-- Members of a JSON object, positioned after the opening brace. -/
def parseMembers : Nat → Str → Option (List (Str × Json) × Str)
  | 0, _ => none
  | fuel + 1, s =>
    match skipWs s with
    | '"' :: r =>
      match parseStrBody fuel r with
      | some (k, r2) =>
        match skipWs r2 with
        | ':' :: r3 =>
          match parseValue fuel r3 with
          | some (v, r4) =>
            match skipWs r4 with
            | ',' :: r5 => (parseMembers fuel r5).map (fun p => ((k, v) :: p.1, p.2))
            | '\x7d' :: r5 => some ([(k, v)], r5)
            | _ => none
          | none => none
        | _ => none
      | none => none
    | _ => none

/-- Elements of a JSON array, positioned after the opening bracket. -/
def parseElements : Nat → Str → Option (List Json × Str)
  | 0, _ => none
  | fuel + 1, s =>
    match parseValue fuel s with
    | some (v, r) =>
      match skipWs r with
      | ',' :: r2 => (parseElements fuel r2).map (fun p => (v :: p.1, p.2))
      | ']' :: r2 => some ([v], r2)
      | _ => none
    | none => none

end

/-- json.loads: parse a complete document, rejecting trailing content. -/
def parseJson (s : Str) : Option Json :=
  match parseValue (s.length + 16) s with
  | some (v, rest) => if skipWs rest = [] then some v else none
  | none => none

/-- Lookup in a parsed JSON object with Python dict semantics: a later
binding of the same key shadows an earlier one. -/
def pyLookup (k : Str) : List (Str × Json) → Option Json
  | [] => none
  | (k2, v) :: rest =>
    match pyLookup k rest with
    | some v2 => some v2
    | none => if k2 = k then some v else none

/-- The `in` operator on a parsed JSON object. -/
def pyMem (k : Str) (m : List (Str × Json)) : Bool := (pyLookup k m).isSome

/-- Subscript on a parsed JSON object (total; callers guard with pyMem). -/
def pyGet (k : Str) (m : List (Str × Json)) : Json := (pyLookup k m).getD Json.null

mutual

/-- Python repr of a json.loads value. -/
def pyRepr : Json → Str
  | Json.null => lit "None"
  | Json.bool true => lit "True"
  | Json.bool false => lit "False"
  | Json.num n => n
  | Json.str s => '\x27' :: s ++ ['\x27']
  | Json.arr l => '[' :: List.intercalate (lit ", ") (pyReprList l) ++ [']']
  | Json.obj m => '\x7b' :: List.intercalate (lit ", ") (pyReprMembers m) ++ ['\x7d']

/-- repr of each element of a JSON array. -/
def pyReprList : List Json → List Str
  | [] => []
  | v :: vs => pyRepr v :: pyReprList vs

/-- repr of each member of a JSON object. -/
def pyReprMembers : List (Str × Json) → List Str
  | [] => []
  | p :: ps => ('\x27' :: p.1 ++ lit "\x27: " ++ pyRepr p.2) :: pyReprMembers ps

end

/-- Python str() applied to a json.loads value. -/
def pyStr : Json → Str
  | Json.str s => s
  | v => pyRepr v

/-- Opening delimiter of a visible reasoning block. -/
def thinkStartTag : Str := lit "<think>"

/-- Closing delimiter of a visible reasoning block. -/
def thinkEndTag : Str := lit "</think>"

/-- Step 1 of the response normalizer in _invoke_chain_and_process
(llm_interface.py lines 958 to 964): when both reasoning markers occur and
the end marker comes after the start marker, keep only the stripped text
after the end marker; otherwise leave the response untouched. -/
def stripThink (s : Str) : Str :=
  match findSub thinkStartTag s, findSub thinkEndTag s with
  | some i, some j => if j > i then pyStrip (s.drop (j + thinkEndTag.length)) else s
  | _, _ => s

/-- The markdown fence opener removed by step 2. -/
def fenceOpenTag : Str := lit "```json"

/-- The markdown fence closer removed by step 2. -/
def fenceCloseTag : Str := lit "```"

/-- Step 2 of the response normalizer (llm_interface.py lines 966 to 971):
if the stripped text begins with the json fence opener, drop the opener's
seven characters, drop a trailing fence closer when present, and strip. -/
def stripFence (s : Str) : Str :=
  if pyStartsWith fenceOpenTag (pyStrip s) then
    let t := (pyStrip s).drop 7
    let t2 := if pyEndsWith fenceCloseTag t then t.take (t.length - 3) else t
    pyStrip t2
  else s

/-- Step 3's candidate (llm_interface.py lines 975 to 978): the substring
from the first opening brace to the last closing brace, when the last comes
after the first. -/
def braceCandidate (s : Str) : Option Str :=
  match findCharIdx '\x7b' s, rfindCharIdx '\x7d' s with
  | some f, some l => if f < l then some ((s.drop f).take (l + 1 - f)) else none
  | _, _ => none

/-- Steps 3 and 4 of the response normalizer (llm_interface.py lines 973 to
992): keep the isolated candidate only when it parses as JSON; on a missing
brace pair or a parse failure, fall back to the input unchanged. -/
def braceIsolate (s : Str) : Str :=
  match braceCandidate s with
  | some cand => if (parseJson cand).isSome then cand else s
  | none => s

/-- The full cleaning pipeline of _invoke_chain_and_process applied to a
non-null raw completion. -/
def normalizeResponse (s : Str) : Str := braceIsolate (stripFence (stripThink s))

/-- The error payload _invoke_chain_and_process returns when the chain
yields None (llm_interface.py lines 951 to 953). -/
def invokeNoneResult (k : Str) : Str :=
  lit "\x7b\"error\": \"Chain invocation returned None for " ++ k ++ lit "\"\x7d"

/-- Status vocabulary of the specification's NormalizedResult, assigned to
each branch of the app.py result classifier. -/
inductive Status where
  | ok : Status
  | notFound : Status
  | rateLimited : Status
  | invalidJson : Status
  | keyMissing : Status
  | exception : Status
deriving DecidableEq, Repr

/-- One displayed result card: final answer text, whether a parse error was
recorded, and the specification status of the branch that produced it. -/
structure CardResult where
  display : Str
  parseError : Bool
  status : Status
deriving DecidableEq, Repr

/-- The think-block removal applied to the raw result string before parsing
(app.py lines 326 to 333); both branches strip surrounding whitespace. -/
def prepareJsonString (s : Str) : Str :=
  match findSub thinkStartTag s, findSub thinkEndTag s with
  | some i, some j =>
    if j > i then pyStrip (s.drop (j + thinkEndTag.length)) else pyStrip s
  | _, _ => pyStrip s

/-- The result classifier of the app.py extraction loop (lines 336 to 361):
empty input and parse failures give Invalid JSON; a mapping with the
attribute key yields its value; otherwise a mapping with an error key is
inspected for the rate-limit substring; anything else lacks the key. A
non-string error value makes the lower() call raise, which the generic
except branch converts to Parsing Error. -/
def classifyCard (attributeKey s : Str) : CardResult :=
  let t := prepareJsonString s
  if t = [] then ⟨lit "Invalid JSON", true, Status.invalidJson⟩
  else
    match parseJson t with
    | none => ⟨lit "Invalid JSON", true, Status.invalidJson⟩
    | some (Json.obj m) =>
      if pyMem attributeKey m then
        let v := pyStr (pyGet attributeKey m)
        ⟨v, false, if v = lit "NOT FOUND" then Status.notFound else Status.ok⟩
      else if pyMem (lit "error") m then
        match pyGet (lit "error") m with
        | Json.str e =>
          if containsSub (pyLower e) (lit "rate limit") then
            ⟨lit "Rate Limit Hit", false, Status.rateLimited⟩
          else
            ⟨lit "Error: " ++ e, false, Status.exception⟩
        | _ => ⟨lit "Parsing Error", true, Status.exception⟩
      else ⟨lit "Key not found", false, Status.keyMissing⟩
    | some _ => ⟨lit "Key not found", false, Status.keyMissing⟩

/-- The badge color computation (app.py lines 365 to 371): a function of
the recorded parse error and the lowercased display text. -/
def badgeColor (parseError : Bool) (finalAnswerValue : Str) : Str :=
  let lv := pyLower finalAnswerValue
  if !parseError
      && !(containsSub lv (lit "error"))
      && !(containsSub lv (lit "not found"))
      && !(containsSub lv (lit "invalid json"))
      && !(containsSub lv (lit "key not found"))
      && !(containsSub lv (lit "rate limit")) then
    lit "#28a745"
  else if containsSub lv (lit "not found") then lit "#ffc107"
  else if containsSub lv (lit "rate limit") then lit "#6c757d"
  else lit "#dc3545"

/-- Color of one displayed card. -/
def cardColor (r : CardResult) : Str := badgeColor r.parseError r.display

/-- One named attribute with its extraction instructions, as listed in
prompts_to_run (app.py lines 250 to 279). -/
structure AttrSpec where
  name : Str
  promptText : Str
deriving DecidableEq, Repr

/-- The error JSON the except branch builds when the extraction call raises
(app.py line 311). -/
def exceptionJson (e : Str) : Str :=
  lit "\x7b\"error\": \"Exception during extraction call: " ++ e ++ lit "\"\x7d"

/-- One iteration of the extraction loop: the completion call either
returns a raw result string or raises; the raised message is caught and
converted to the error JSON, and the iteration always ends in the result
classifier (app.py lines 287 to 361). -/
def processAttribute (oracle : AttrSpec → Except Str Str) (a : AttrSpec) : CardResult :=
  match oracle a with
  | Except.ok r => classifyCard a.name r
  | Except.error e => classifyCard a.name (exceptionJson e)

/-- The whole extraction loop over the attribute list in display order. -/
def runExtractionBatch (oracle : AttrSpec → Except Str Str) : List AttrSpec → List CardResult
  | [] => []
  | a :: rest => processAttribute oracle a :: runExtractionBatch oracle rest

/-- Observable events of the extraction loop's timing. -/
inductive BatchEvent where
  | call : Str → BatchEvent
  | sleepFor : ℚ → BatchEvent
deriving DecidableEq, Repr

/-- The pacing constant hardcoded in the loop (app.py line 285). -/
def SLEEP_INTERVAL_SECONDS : ℚ := 1 / 2

/-- Timing trace of the loop (app.py lines 287 to 311): each iteration
issues the call; only when the call returns without raising does the loop
sleep for the pacing interval, because the sleep sits inside the try block
after the call and is skipped when the exception handler fires. -/
def extractionTrace (oracle : AttrSpec → Except Str Str) : List AttrSpec → List BatchEvent
  | [] => []
  | a :: rest =>
    match oracle a with
    | Except.ok _ =>
      BatchEvent.call a.name :: BatchEvent.sleepFor SLEEP_INTERVAL_SECONDS ::
        extractionTrace oracle rest
    | Except.error _ => BatchEvent.call a.name :: extractionTrace oracle rest

/-- Every name bound at the top level of config.py: the three imported
names followed by the module's own assignments, in source order. -/
def configModuleNames : List String :=
  ["os", "load_dotenv", "ChromaSettings",
   "GROQ_API_KEY", "LLM_MODEL_NAME",
   "EMBEDDING_MODEL_NAME", "EMBEDDING_DEVICE", "NORMALIZE_EMBEDDINGS",
   "CHROMA_PERSIST_DIRECTORY", "CHROMA_SETTINGS", "CHROMA_COLLECTION_NAME",
   "CHUNK_SIZE", "CHUNK_OVERLAP", "RETRIEVER_SEARCH_K",
   "LLM_TEMPERATURE", "LLM_MAX_OUTPUT_TOKENS", "LOG_LEVEL"]

/-- Every name bound at the top level of llm_interface.py: imported names
followed by the module's own definitions, in source order. -/
def llmInterfaceModuleNames : List String :=
  ["requests", "json", "List", "Dict", "Optional", "logger",
   "VectorStoreRetriever", "Document", "ChatGroq", "PromptTemplate",
   "RunnablePassthrough", "RunnableParallel", "StrOutputParser", "config",
   "asyncio", "AsyncWebCrawler", "BrowserConfig", "CrawlerRunConfig",
   "CacheMode", "JsonCssExtractionStrategy", "BeautifulSoup", "aiohttp",
   "datetime", "timedelta", "WebBaseLoader", "RecursiveCharacterTextSplitter",
   "BestFirstCrawlingStrategy", "FilterChain", "URLPatternFilter",
   "ContentTypeFilter", "KeywordRelevanceScorer", "LXMLWebScrapingStrategy",
   "TRACEPARTS_API_CONFIG", "get_traceparts_token",
   "get_traceparts_product_data", "format_traceparts_data", "initialize_llm",
   "format_docs", "get_answer_from_llm_langchain", "WEBSITE_CONFIGS",
   "clean_scraped_html", "scrape_website_table_html",
   "create_pdf_extraction_chain", "create_web_extraction_chain",
   "_invoke_chain_and_process"]

/-- Executing the llm_interface module body: line 41 reads
config.TRACEPARTS_API_KEY, so loading raises AttributeError unless config
binds that name. -/
def loadLlmInterfaceModule : Except String Unit :=
  if configModuleNames.contains "TRACEPARTS_API_KEY" then Except.ok ()
  else Except.error "AttributeError: module config has no attribute TRACEPARTS_API_KEY"

/-- The names app.py requests from llm_interface (app.py lines 24 to 28). -/
def appLlmImports : List String :=
  ["initialize_llm", "create_extraction_chain", "run_extraction"]

/-- The from-import statement of app.py: the target module body runs first,
then each requested name is looked up; a missing name raises ImportError. -/
def fromLlmInterfaceImport : Except String Unit :=
  match loadLlmInterfaceModule with
  | Except.error e => Except.error e
  | Except.ok _ =>
    match appLlmImports.find? (fun n => !(llmInterfaceModuleNames.contains n)) with
    | some n => Except.error ("ImportError: cannot import name " ++ n)
    | none => Except.ok ()

/-- app.py as a whole: the import block at the top of the module must
succeed before the extraction loop can run at all. -/
def appMain (oracle : AttrSpec → Except Str Str) (attrs : List AttrSpec) :
    Except String (List CardResult) :=
  match fromLlmInterfaceImport with
  | Except.error e => Except.error e
  | Except.ok _ => Except.ok (runExtractionBatch oracle attrs)

/-- process_uploaded_pdfs (pdf_processor.py lines 162 to 238), with the
per-file Mistral-Vision pipeline abstracted as a parameter: the client
initialization block reads config.VISION_MODEL_NAME (line 181); when config
does not bind that name the AttributeError is caught and the function
returns the empty list (lines 183 to 185) without processing any file. -/
def process_uploaded_pdfs {α β : Type} (processSingle : α → List β)
    (uploadedFiles : List α) : List β :=
  if configModuleNames.contains "VISION_MODEL_NAME" then
    (uploadedFiles.map processSingle).flatten
  else []

/-- PDF prompt template, text before the part number. -/
def pdfSeg1 : Str :=
  lit "\nYou are an expert data extractor. Your goal is to extract a specific piece of information based on the Extraction Instructions provided below, using ONLY the Document Context from PDFs.\n\nPart Number Information (if provided by user):\n"

/-- PDF prompt template, between part number and context. -/
def pdfSeg2 : Str := lit "\n\n--- Document Context (from PDFs) ---\n"

/-- PDF prompt template, between context and instructions. -/
def pdfSeg3 : Str := lit "\n--- End Document Context ---\n\nExtraction Instructions:\n"

/-- PDF prompt template, between instructions and the key's prose mention. -/
def pdfSeg4 : Str :=
  lit "\n\n---\nIMPORTANT: Respond with ONLY a single, valid JSON object containing exactly one key-value pair.\n- The key for the JSON object MUST be the string: \""

/-- PDF prompt template, between the prose mention and the example. -/
def pdfSeg5 : Str :=
  lit "\"\n- The value MUST be the extracted result determined by following the Extraction Instructions using the Document Context provided above.\n- Provide the value as a JSON string. Examples: \"GF, T\", \"none\", \"NOT FOUND\", \"Female\", \"7.2\", \"999\".\n- Do NOT include any explanations, reasoning, or any text outside of the single JSON object in your response.\n\nExample Output Format:\n\x7b\""

/-- PDF prompt template, after the example mention of the key. -/
def pdfSeg6 : Str := lit "\": \"extracted_value_from_pdf\"\x7d\n\nOutput:\n"

/-- The instruction text composed by create_pdf_extraction_chain
(llm_interface.py lines 837 to 861) for one attribute. -/
def pdfExtractionPrompt (partNumber context instructions key : Str) : Str :=
  pdfSeg1 ++ partNumber ++ pdfSeg2 ++ context ++ pdfSeg3 ++ instructions ++
    pdfSeg4 ++ key ++ pdfSeg5 ++ key ++ pdfSeg6

/-- Web prompt template, text before the cleaned web data. -/
def webSeg1 : Str :=
  lit "\nYou are an expert data extractor. Your goal is to answer a specific piece of information by applying the logic described in the \x27Extraction Instructions\x27 to the \x27Cleaned Scraped Website Data\x27 provided below. Use ONLY the provided website data as your context.\n\n--- Cleaned Scraped Website Data ---\n"

/-- Web prompt template, between web data and instructions. -/
def webSeg2 : Str :=
  lit "\n--- End Cleaned Scraped Website Data ---\n\nExtraction Instructions:\n"

/-- Web prompt template, between instructions and the key's prose mention. -/
def webSeg3 : Str :=
  lit "\n\n---\nIMPORTANT: Follow the Extraction Instructions carefully using the website data.\nRespond with ONLY a single, valid JSON object containing exactly one key-value pair.\n- The key for the JSON object MUST be the string: \""

/-- Web prompt template, between the prose mention and the example. -/
def webSeg4 : Str :=
  lit "\"\n- The value MUST be the result obtained by applying the Extraction Instructions to the Cleaned Scraped Website Data.\n- Provide the value as a JSON string.\n- If the information cannot be determined from the Cleaned Scraped Website Data based on the instructions, the value MUST be \"NOT FOUND\".\n- Do NOT include any explanations or reasoning outside the JSON object.\n\nExample Output Format:\n\x7b\""

/-- Web prompt template, after the example mention of the key. -/
def webSeg5 : Str := lit "\": \"extracted_value_based_on_instructions\"\x7d\n\nOutput:\n"

/-- The instruction text composed by create_web_extraction_chain
(llm_interface.py lines 895 to 918) for one attribute. -/
def webExtractionPrompt (cleanedWebData instructions key : Str) : Str :=
  webSeg1 ++ cleanedWebData ++ webSeg2 ++ instructions ++
    webSeg3 ++ key ++ webSeg4 ++ key ++ webSeg5

/-- The prose phrase that precedes the key name in both templates. -/
def prosePhrase : Str := lit "MUST be the string: \""

/-- The example-output phrase that precedes the key name in both templates. -/
def examplePhrase : Str := lit "Example Output Format:\n\x7b\""

/-- pdfSeg4 without its trailing prose phrase. -/
def pdfSeg4a : Str :=
  lit "\n\n---\nIMPORTANT: Respond with ONLY a single, valid JSON object containing exactly one key-value pair.\n- The key for the JSON object "

/-- pdfSeg5 without its trailing example phrase. -/
def pdfSeg5a : Str :=
  lit "\"\n- The value MUST be the extracted result determined by following the Extraction Instructions using the Document Context provided above.\n- Provide the value as a JSON string. Examples: \"GF, T\", \"none\", \"NOT FOUND\", \"Female\", \"7.2\", \"999\".\n- Do NOT include any explanations, reasoning, or any text outside of the single JSON object in your response.\n\n"

/-- webSeg3 without its trailing prose phrase. -/
def webSeg3a : Str :=
  lit "\n\n---\nIMPORTANT: Follow the Extraction Instructions carefully using the website data.\nRespond with ONLY a single, valid JSON object containing exactly one key-value pair.\n- The key for the JSON object "

/-- webSeg4 without its trailing example phrase. -/
def webSeg4a : Str :=
  lit "\"\n- The value MUST be the result obtained by applying the Extraction Instructions to the Cleaned Scraped Website Data.\n- Provide the value as a JSON string.\n- If the information cannot be determined from the Cleaned Scraped Website Data based on the instructions, the value MUST be \"NOT FOUND\".\n- Do NOT include any explanations or reasoning outside the JSON object.\n\n"

/-- A raw completion that is a payload wrapped in a markdown json fence on
its own lines. -/
def fencedWrap (payload : Str) : Str := lit "```json\n" ++ payload ++ lit "\n```"

/-- First demonstration attribute. -/
def attrA : AttrSpec := ⟨lit "Material Filling", lit "material filling instructions"⟩

/-- Second demonstration attribute, whose call will raise. -/
def attrB : AttrSpec := ⟨lit "Gender", lit "gender instructions"⟩

/-- Third demonstration attribute. -/
def attrC : AttrSpec := ⟨lit "Colour", lit "colour instructions"⟩

/-- A completion capability whose call for the Gender attribute raises a
timeout and whose other calls return clean single-key JSON. -/
def demoOracle : AttrSpec → Except Str Str := fun a =>
  if a.name = lit "Gender" then Except.error (lit "Request timed out.")
  else if a.name = lit "Material Filling" then
    Except.ok (lit "\x7b\"Material Filling\": \"GF, T\"\x7d")
  else Except.ok (lit "\x7b\"Colour\": \"black\"\x7d")

theorem runExtractionBatch_eq_map (oracle : AttrSpec → Except Str Str) :
    ∀ attrs : List AttrSpec,
      runExtractionBatch oracle attrs = attrs.map (processAttribute oracle) := by
  intro attrs
  induction attrs with
  | nil => rfl
  | cons a rest ih => simp [runExtractionBatch, ih]

/-- Claim C1: an exception raised by one attribute's completion call is
caught and converted into an error-carrying result for that attribute, and
the remaining attributes are processed unaffected: the batch equals the
per-attribute map of processAttribute, an always-raising call yields the
classified exception JSON, and the concrete 3-attribute batch whose second
call raises a timeout yields exactly 3 results with statuses OK, EXCEPTION,
OK, the first and third being what they are in isolation. -/
theorem batch_failure_isolation :
    (∀ (oracle : AttrSpec → Except Str Str) (attrs : List AttrSpec),
      runExtractionBatch oracle attrs = attrs.map (processAttribute oracle)) ∧
    (∀ (er : AttrSpec → Str) (a : AttrSpec),
      processAttribute (fun x => Except.error (er x)) a =
        classifyCard a.name (exceptionJson (er a))) ∧
    (runExtractionBatch demoOracle [attrA, attrB, attrC]).map CardResult.status =
      [Status.ok, Status.exception, Status.ok] ∧
    (runExtractionBatch demoOracle [attrA, attrB, attrC]).length = 3 ∧
    runExtractionBatch demoOracle [attrA, attrB, attrC] =
      [processAttribute demoOracle attrA, processAttribute demoOracle attrB,
       processAttribute demoOracle attrC] :=
  ⟨runExtractionBatch_eq_map, fun _ _ => rfl, by decide, rfl, rfl⟩

/-- Claim C2: whenever the brace-isolated candidate of step 3 exists but
fails to parse as JSON, the normalizer returns exactly the text as it stood
after the fence-strip step, not the candidate and not an error. -/
theorem normalizer_fallback_pre_isolation :
    ∀ (r cand : Str),
      braceCandidate (stripFence (stripThink r)) = some cand →
      parseJson cand = none →
      normalizeResponse r = stripFence (stripThink r) := by
  intro r cand h1 h2
  unfold normalizeResponse braceIsolate
  rw [h1]
  simp [h2]

/-- Witness for C2 at a raw completion whose brace candidate is not JSON. -/
theorem normalizer_fallback_pre_isolation_witness :
    braceCandidate (stripFence (stripThink (lit "prose \x7b not json \x7d tail"))) =
      some (lit "\x7b not json \x7d") ∧
    parseJson (lit "\x7b not json \x7d") = none ∧
    normalizeResponse (lit "prose \x7b not json \x7d tail") =
      stripFence (stripThink (lit "prose \x7b not json \x7d tail")) :=
  ⟨rfl, rfl,
   normalizer_fallback_pre_isolation (lit "prose \x7b not json \x7d tail")
     (lit "\x7b not json \x7d") rfl rfl⟩

/-- Counterexample to claim C3 as stated: this normalized output parses to
a mapping that contains an error key whose text contains the rate-limit
substring, yet the classifier does not yield RATE_LIMITED, because the
attribute-key branch is checked first and wins. -/
theorem rate_limit_heuristic_counterexample :
    (∃ m, parseJson (prepareJsonString
        (lit "\x7b\"X\": \"v\", \"error\": \"rate limit exceeded\"\x7d")) =
          some (Json.obj m) ∧
      pyGet (lit "error") m = Json.str (lit "rate limit exceeded") ∧
      containsSub (pyLower (lit "rate limit exceeded")) (lit "rate limit") = true) ∧
    (classifyCard (lit "X")
        (lit "\x7b\"X\": \"v\", \"error\": \"rate limit exceeded\"\x7d")).status =
      Status.ok ∧
    (classifyCard (lit "X")
        (lit "\x7b\"X\": \"v\", \"error\": \"rate limit exceeded\"\x7d")).status ≠
      Status.rateLimited ∧
    (classifyCard (lit "X")
        (lit "\x7b\"X\": \"v\", \"error\": \"rate limit exceeded\"\x7d")).display ≠
      lit "Rate Limit Hit" :=
  ⟨⟨[(lit "X", Json.str (lit "v")), (lit "error", Json.str (lit "rate limit exceeded"))],
    rfl, rfl, rfl⟩, rfl, by decide, by decide⟩

/-- Claim C3 as amended: when the parsed mapping carries an error key and
does not carry the expected attribute key (which the classifier checks
first), the classifier yields RATE_LIMITED with display Rate Limit Hit if
and only if the error text contains the rate-limit substring
case-insensitively. -/
theorem rate_limit_heuristic_amended :
    ∀ (k s : Str) (m : List (Str × Json)) (e : Str),
      prepareJsonString s ≠ [] →
      parseJson (prepareJsonString s) = some (Json.obj m) →
      pyMem k m = false →
      pyMem (lit "error") m = true →
      pyGet (lit "error") m = Json.str e →
      (((classifyCard k s).status = Status.rateLimited ∧
        (classifyCard k s).display = lit "Rate Limit Hit") ↔
        containsSub (pyLower e) (lit "rate limit") = true) := by
  intro k s m e hne hp hk he hev
  unfold classifyCard
  rw [if_neg hne, hp]
  simp only [hk, he, hev]
  cases hc : containsSub (pyLower e) (lit "rate limit") <;> simp [hc]

/-- Witness for the amended C3 at the spec's example payload with mixed
case in the error text. -/
theorem rate_limit_heuristic_amended_witness :
    (classifyCard (lit "X")
        (lit "\x7b\"error\": \"Rate LIMIT exceeded, retry later\"\x7d")).status =
      Status.rateLimited ∧
    (classifyCard (lit "X")
        (lit "\x7b\"error\": \"Rate LIMIT exceeded, retry later\"\x7d")).display =
      lit "Rate Limit Hit" :=
  (rate_limit_heuristic_amended (lit "X")
    (lit "\x7b\"error\": \"Rate LIMIT exceeded, retry later\"\x7d")
    [(lit "error", Json.str (lit "Rate LIMIT exceeded, retry later"))]
    (lit "Rate LIMIT exceeded, retry later")
    (by decide) rfl rfl rfl rfl).mpr (by decide)

/-- Counterexample to claim C7 as stated: an empty raw completion is
classified INVALID_JSON with display Invalid JSON, not EXCEPTION with
display Error during extraction. -/
theorem absent_completion_counterexample :
    (classifyCard (lit "X") (lit "")).status = Status.invalidJson ∧
    (classifyCard (lit "X") (lit "")).status ≠ Status.exception ∧
    (classifyCard (lit "X") (lit "")).display ≠ lit "Error during extraction." := by
  decide

/-- Claim C7 as amended: the classifier is a total function that never
raises; an empty raw completion classifies as INVALID_JSON displaying
Invalid JSON for every attribute key, and a null completion is converted
upstream into an error JSON that classifies as EXCEPTION displaying the
chain-returned-None message, not the string Error during extraction. -/
theorem absent_completion_amended :
    (∀ k : Str, classifyCard k (lit "") =
      ⟨lit "Invalid JSON", true, Status.invalidJson⟩) ∧
    classifyCard (lit "Gender") (invokeNoneResult (lit "Gender")) =
      ⟨lit "Error: Chain invocation returned None for Gender", false,
        Status.exception⟩ :=
  ⟨fun _ => rfl, rfl⟩

/-- Counterexample to claim C6 as stated: in a batch whose first call
raises, the two calls are adjacent in the timing trace with no sleep
between them, and the pacing interval is not a config option under any
spelling of pacing_interval_seconds. -/
theorem pacing_counterexample :
    extractionTrace demoOracle [attrB, attrC] =
      [BatchEvent.call (lit "Gender"), BatchEvent.call (lit "Colour"),
       BatchEvent.sleepFor SLEEP_INTERVAL_SECONDS] ∧
    [BatchEvent.call (lit "Gender"), BatchEvent.call (lit "Colour")] <:+:
      extractionTrace demoOracle [attrB, attrC] ∧
    configModuleNames.contains "pacing_interval_seconds" = false ∧
    configModuleNames.contains "PACING_INTERVAL_SECONDS" = false :=
  ⟨rfl, ⟨[], [BatchEvent.sleepFor SLEEP_INTERVAL_SECONDS], by rfl⟩, rfl, rfl⟩

/-- Claim C6 as amended: the loop sleeps for the hardcoded half-second
module constant after each call that returns, before the next call; when a
call raises, the sleep is skipped, so the next call follows with no delay;
and the interval is not a configurable startup option of the config
module. -/
theorem pacing_amended :
    ∀ (oracle : AttrSpec → Except Str Str) (a : AttrSpec) (rest : List AttrSpec),
      ((∃ r, oracle a = Except.ok r) →
        extractionTrace oracle (a :: rest) =
          BatchEvent.call a.name :: BatchEvent.sleepFor SLEEP_INTERVAL_SECONDS ::
            extractionTrace oracle rest) ∧
      ((∃ e, oracle a = Except.error e) →
        extractionTrace oracle (a :: rest) =
          BatchEvent.call a.name :: extractionTrace oracle rest) ∧
      configModuleNames.contains "PACING_INTERVAL_SECONDS" = false := by
  intro oracle a rest
  refine ⟨?_, ?_, rfl⟩
  · rintro ⟨r, h⟩
    simp [extractionTrace, h]
  · rintro ⟨e, h⟩
    simp [extractionTrace, h]

/-- Witness for the amended C6: a returning call is followed by the sleep,
a raising call is not. -/
theorem pacing_amended_witness :
    extractionTrace demoOracle [attrA] =
      [BatchEvent.call attrA.name, BatchEvent.sleepFor SLEEP_INTERVAL_SECONDS] ∧
    extractionTrace demoOracle [attrB] = [BatchEvent.call attrB.name] := by
  constructor
  · have h := (pacing_amended demoOracle attrA []).1 ⟨_, rfl⟩
    simpa [extractionTrace] using h
  · have h := (pacing_amended demoOracle attrB []).2.1 ⟨_, rfl⟩
    simpa [extractionTrace] using h

/-- Claim C9: app.py requests create_extraction_chain and run_extraction
from llm_interface, which binds neither name, so the import raises (in
fact the llm_interface module body already raises on the unbound
config.TRACEPARTS_API_KEY) and the extraction loop can never run. -/
theorem app_import_always_fails :
    llmInterfaceModuleNames.contains "create_extraction_chain" = false ∧
    llmInterfaceModuleNames.contains "run_extraction" = false ∧
    appLlmImports.contains "create_extraction_chain" = true ∧
    appLlmImports.contains "run_extraction" = true ∧
    (∃ e, fromLlmInterfaceImport = Except.error e) ∧
    (∀ (oracle : AttrSpec → Except Str Str) (attrs : List AttrSpec),
      ∃ e, appMain oracle attrs = Except.error e) :=
  ⟨rfl, rfl, rfl, rfl, ⟨_, rfl⟩, fun _ _ => ⟨_, rfl⟩⟩

/-- Claim C10: for every list of uploaded files and every per-file
processing pipeline, process_uploaded_pdfs returns the empty list, because
the client-initialization block reads the unbound config.VISION_MODEL_NAME
and the caught exception is converted into an empty-list return. -/
theorem ingestion_always_empty :
    ∀ (α β : Type) (processSingle : α → List β) (files : List α),
      process_uploaded_pdfs processSingle files = [] :=
  fun _ _ _ _ => rfl

theorem pdfSeg4_split : pdfSeg4 = pdfSeg4a ++ prosePhrase := by decide

theorem pdfSeg5_split : pdfSeg5 = pdfSeg5a ++ examplePhrase := by decide

theorem webSeg3_split : webSeg3 = webSeg3a ++ prosePhrase := by decide

theorem webSeg4_split : webSeg4 = webSeg4a ++ examplePhrase := by decide

/-- Claim C5: every composed extraction prompt, in both the PDF mode and
the web mode, states the attribute key name at least twice: once right
after the prose phrase demanding the key be that string, and once right
after the example-output phrase. -/
theorem prompt_key_redundancy :
    ∀ (pn ctx instr key cleanedWeb : Str),
      (∃ a b c, pdfExtractionPrompt pn ctx instr key =
        a ++ (prosePhrase ++ key) ++ b ++ (examplePhrase ++ key) ++ c) ∧
      (∃ a b c, webExtractionPrompt cleanedWeb instr key =
        a ++ (prosePhrase ++ key) ++ b ++ (examplePhrase ++ key) ++ c) := by
  intro pn ctx instr key cleanedWeb
  constructor
  · refine ⟨pdfSeg1 ++ pn ++ pdfSeg2 ++ ctx ++ pdfSeg3 ++ instr ++ pdfSeg4a,
      pdfSeg5a, pdfSeg6, ?_⟩
    simp only [pdfExtractionPrompt, pdfSeg4_split, pdfSeg5_split, List.append_assoc]
  · refine ⟨webSeg1 ++ cleanedWeb ++ webSeg2 ++ instr ++ webSeg3a,
      webSeg4a, webSeg5, ?_⟩
    simp only [webExtractionPrompt, webSeg3_split, webSeg4_split, List.append_assoc]

theorem pyStartsWith_self_append : ∀ p x : Str, pyStartsWith p (p ++ x) = true := by
  intro p
  induction p with
  | nil => intro x; rfl
  | cons c cs ih => intro x; simp [pyStartsWith, ih]

theorem pyStartsWith_append : ∀ p x y : Str,
    pyStartsWith p x = true → pyStartsWith p (x ++ y) = true := by
  intro p
  induction p with
  | nil => intro x y _; rfl
  | cons c cs ih =>
    intro x y h
    cases x with
    | nil => simp [pyStartsWith] at h
    | cons d ds =>
      simp only [pyStartsWith, Bool.and_eq_true, beq_iff_eq] at h
      simp [pyStartsWith, h.1, ih ds y h.2]

theorem containsSub_append_left : ∀ x y pat : Str,
    containsSub x pat = true → containsSub (x ++ y) pat = true := by
  intro x
  induction x with
  | nil =>
    intro y pat h
    cases pat with
    | cons p ps => simp [containsSub, findSub] at h
    | nil =>
      cases y with
      | nil => decide
      | cons c cs => simp [containsSub, findSub, pyStartsWith]
  | cons c cs ih =>
    intro y pat h
    rw [List.cons_append]
    by_cases hs : pyStartsWith pat (c :: (cs ++ y)) = true
    · simp [containsSub, findSub, hs]
    · rw [Bool.not_eq_true] at hs
      have hs0 : pyStartsWith pat (c :: cs) = false := by
        cases hsc : pyStartsWith pat (c :: cs)
        · rfl
        · have h2 := pyStartsWith_append pat (c :: cs) y hsc
          rw [List.cons_append] at h2
          rw [h2] at hs
          cases hs
      have h' : containsSub cs pat = true := by
        simp only [containsSub, findSub, hs0, Bool.false_eq_true, if_false] at h
        simpa [containsSub] using h
      have hrec := ih y pat h'
      simp only [containsSub, findSub, hs, Bool.false_eq_true, if_false]
      simpa [containsSub] using hrec

theorem pyLower_append : ∀ x y : Str, pyLower (x ++ y) = pyLower x ++ pyLower y := by
  intro x y
  simp [pyLower]

theorem error_display_contains_error :
    ∀ e : Str, containsSub (pyLower (lit "Error: " ++ e)) (lit "error") = true := by
  intro e
  rw [pyLower_append]
  exact containsSub_append_left (pyLower (lit "Error: ")) (pyLower e) (lit "error")
    (by decide)

theorem classifyCard_cases (k s : Str) :
    classifyCard k s = ⟨lit "Invalid JSON", true, Status.invalidJson⟩ ∨
    (∃ v, classifyCard k s =
      ⟨v, false, if v = lit "NOT FOUND" then Status.notFound else Status.ok⟩) ∨
    classifyCard k s = ⟨lit "Rate Limit Hit", false, Status.rateLimited⟩ ∨
    (∃ e, classifyCard k s = ⟨lit "Error: " ++ e, false, Status.exception⟩) ∨
    classifyCard k s = ⟨lit "Parsing Error", true, Status.exception⟩ ∨
    classifyCard k s = ⟨lit "Key not found", false, Status.keyMissing⟩ := by
  unfold classifyCard
  by_cases h0 : prepareJsonString s = []
  · rw [if_pos h0]
    exact Or.inl rfl
  · rw [if_neg h0]
    cases hp : parseJson (prepareJsonString s) with
    | none => exact Or.inl rfl
    | some v =>
      cases v with
      | obj m =>
        by_cases hk : pyMem k m = true
        · simp only [hk, if_true]
          exact Or.inr (Or.inl ⟨_, rfl⟩)
        · rw [Bool.not_eq_true] at hk
          simp only [hk, Bool.false_eq_true, if_false]
          by_cases he : pyMem (lit "error") m = true
          · simp only [he, if_true]
            cases hg : pyGet (lit "error") m with
            | str e =>
              by_cases hc : containsSub (pyLower e) (lit "rate limit") = true
              · simp only [hc, if_true]
                simp
              · rw [Bool.not_eq_true] at hc
                simp only [hc, Bool.false_eq_true, if_false]
                exact Or.inr (Or.inr (Or.inr (Or.inl ⟨e, rfl⟩)))
            | null => exact Or.inr (Or.inr (Or.inr (Or.inr (Or.inl rfl))))
            | bool b => exact Or.inr (Or.inr (Or.inr (Or.inr (Or.inl rfl))))
            | num n => exact Or.inr (Or.inr (Or.inr (Or.inr (Or.inl rfl))))
            | arr l => exact Or.inr (Or.inr (Or.inr (Or.inr (Or.inl rfl))))
            | obj m2 => exact Or.inr (Or.inr (Or.inr (Or.inr (Or.inl rfl))))
          · rw [Bool.not_eq_true] at he
            simp only [he, Bool.false_eq_true, if_false]
            simp
      | null => exact Or.inr (Or.inr (Or.inr (Or.inr (Or.inr rfl))))
      | bool b => exact Or.inr (Or.inr (Or.inr (Or.inr (Or.inr rfl))))
      | num n => exact Or.inr (Or.inr (Or.inr (Or.inr (Or.inr rfl))))
      | str t => exact Or.inr (Or.inr (Or.inr (Or.inr (Or.inr rfl))))
      | arr l => exact Or.inr (Or.inr (Or.inr (Or.inr (Or.inr rfl))))

/-- Counterexample to claim C4 as stated: a KEY_MISSING result (display Key
not found) is colored yellow, not red; and two results with the same OK
status receive different colors because the color is computed from the
display text, not the status. -/
theorem badge_color_counterexample :
    ((classifyCard (lit "X") (lit "\x7b\"other\": \"v\"\x7d")).status =
       Status.keyMissing ∧
     cardColor (classifyCard (lit "X") (lit "\x7b\"other\": \"v\"\x7d")) ≠
       lit "#dc3545" ∧
     cardColor (classifyCard (lit "X") (lit "\x7b\"other\": \"v\"\x7d")) =
       lit "#ffc107") ∧
    ((classifyCard (lit "X") (lit "\x7b\"X\": \"Female\"\x7d")).status =
       (classifyCard (lit "X") (lit "\x7b\"X\": \"error in pin 3\"\x7d")).status ∧
     cardColor (classifyCard (lit "X") (lit "\x7b\"X\": \"Female\"\x7d")) ≠
       cardColor (classifyCard (lit "X") (lit "\x7b\"X\": \"error in pin 3\"\x7d"))) := by
  decide

/-- Claim C4 as amended: the badge color is computed from the recorded
parse error and the lowercased display text, not from the status alone;
for the classifier's canonical displays this gives RATE_LIMITED grey,
NOT_FOUND yellow, INVALID_JSON red, but KEY_MISSING yellow (its display
contains the not-found substring); an OK result is green only when its
value text avoids the five flagged substrings, and an EXCEPTION result is
red only when its text avoids the not-found and rate-limit substrings. -/
theorem badge_color_amended :
    ∀ k s : Str,
      ((classifyCard k s).status = Status.rateLimited →
        cardColor (classifyCard k s) = lit "#6c757d") ∧
      ((classifyCard k s).status = Status.notFound →
        cardColor (classifyCard k s) = lit "#ffc107") ∧
      ((classifyCard k s).status = Status.invalidJson →
        cardColor (classifyCard k s) = lit "#dc3545") ∧
      ((classifyCard k s).status = Status.keyMissing →
        cardColor (classifyCard k s) = lit "#ffc107") ∧
      ((classifyCard k s).status = Status.ok →
        containsSub (pyLower (classifyCard k s).display) (lit "error") = false →
        containsSub (pyLower (classifyCard k s).display) (lit "not found") = false →
        containsSub (pyLower (classifyCard k s).display) (lit "invalid json") = false →
        containsSub (pyLower (classifyCard k s).display) (lit "key not found") = false →
        containsSub (pyLower (classifyCard k s).display) (lit "rate limit") = false →
        cardColor (classifyCard k s) = lit "#28a745") ∧
      ((classifyCard k s).status = Status.exception →
        containsSub (pyLower (classifyCard k s).display) (lit "not found") = false →
        containsSub (pyLower (classifyCard k s).display) (lit "rate limit") = false →
        cardColor (classifyCard k s) = lit "#dc3545") := by
  intro k s
  rcases classifyCard_cases k s with h | ⟨v, h⟩ | h | ⟨e, h⟩ | h | h
  · rw [h]
    refine ⟨by simp, by simp, fun _ => by decide, by simp, by simp, by simp⟩
  · rw [h]
    by_cases hv : v = lit "NOT FOUND"
    · subst hv
      rw [if_pos rfl]
      refine ⟨by simp, fun _ => by decide, by simp, by simp, by simp, by simp⟩
    · rw [if_neg hv]
      refine ⟨by simp, by simp, by simp, by simp, ?_, by simp⟩
      intro _ h1 h2 h3 h4 h5
      simp only [CardResult.display] at h1 h2 h3 h4 h5
      simp [cardColor, badgeColor, h1, h2, h3, h4, h5]
  · rw [h]
    refine ⟨fun _ => by decide, by simp, by simp, by simp, by simp, by simp⟩
  · rw [h]
    refine ⟨by simp, by simp, by simp, by simp, by simp, ?_⟩
    intro _ h1 h2
    simp only [CardResult.display] at h1 h2
    simp [cardColor, badgeColor, h1, h2, error_display_contains_error e]
  · rw [h]
    refine ⟨by simp, by simp, by simp, by simp, by simp, fun _ _ _ => by decide⟩
  · rw [h]
    refine ⟨by simp, by simp, by simp, fun _ => by decide, by simp, by simp⟩

/-- Witness for the amended C4 at canonical classifier outputs. -/
theorem badge_color_amended_witness :
    cardColor (classifyCard (lit "X") (lit "\x7b\"error\": \"rate limit hit\"\x7d")) =
      lit "#6c757d" ∧
    cardColor (classifyCard (lit "X") (lit "\x7b\"other\": \"v\"\x7d")) =
      lit "#ffc107" ∧
    cardColor (classifyCard (lit "X") (lit "\x7b\"X\": \"Female\"\x7d")) =
      lit "#28a745" ∧
    cardColor (classifyCard (lit "X") (lit "not json at all")) =
      lit "#dc3545" :=
  ⟨(badge_color_amended (lit "X") (lit "\x7b\"error\": \"rate limit hit\"\x7d")).1 rfl,
   (badge_color_amended (lit "X") (lit "\x7b\"other\": \"v\"\x7d")).2.2.2.1 rfl,
   (badge_color_amended (lit "X")
     (lit "\x7b\"X\": \"Female\"\x7d")).2.2.2.2.1 rfl rfl rfl rfl rfl rfl,
   (badge_color_amended (lit "X") (lit "not json at all")).2.2.1 rfl⟩

theorem pyLstrip_cons_of_nonspace {c : Char} {s : Str} (hc : isPySpace c = false) :
    pyLstrip (c :: s) = c :: s := by
  simp [pyLstrip, List.dropWhile_cons, hc]

theorem pyRstrip_of_rev_cons {x : Str} {c : Char} {t : Str}
    (hr : x.reverse = c :: t) (hc : isPySpace c = false) : pyRstrip x = x := by
  unfold pyRstrip
  rw [hr, List.dropWhile_cons, hc]
  simp only [Bool.false_eq_true, if_false]
  rw [← hr, List.reverse_reverse]

theorem pyStrip_eq_self {x : Str} {c d : Char} {t u : Str}
    (h1 : x = c :: t) (h2 : x.reverse = d :: u)
    (hc : isPySpace c = false) (hd : isPySpace d = false) : pyStrip x = x := by
  unfold pyStrip
  rw [h1, pyLstrip_cons_of_nonspace hc, ← h1]
  exact pyRstrip_of_rev_cons h2 hd

theorem stripThink_of_no_end {s : Str} (h : findSub thinkEndTag s = none) :
    stripThink s = s := by
  unfold stripThink
  rw [h]
  cases findSub thinkStartTag s <;> rfl

theorem rev_cons_of_getLast {x : Str} {d : Char} (h : x.getLast? = some d) :
    ∃ u, x.reverse = d :: u := by
  cases hr : x.reverse with
  | nil =>
    rw [← List.head?_reverse, hr] at h
    cases h
  | cons e u =>
    rw [← List.head?_reverse, hr] at h
    simp only [List.head?_cons, Option.some.injEq] at h
    subst h
    exact ⟨u, rfl⟩

theorem braceIsolate_of_object {J J₁ : Str}
    (h2 : J = '\x7b' :: J₁) (h3 : J.getLast? = some '\x7d') :
    braceIsolate J = J := by
  obtain ⟨u, hrev⟩ := rev_cons_of_getLast h3
  have hfind : findCharIdx '\x7b' J = some 0 := by
    rw [h2]; simp [findCharIdx]
  have hrfind : rfindCharIdx '\x7d' J = some (J.length - 1) := by
    unfold rfindCharIdx
    rw [hrev]
    simp [findCharIdx]
  have hJ1 : J₁ ≠ [] := by
    intro hnil
    rw [h2, hnil] at h3
    simp [List.getLast?] at h3
  have hlen : 2 ≤ J.length := by
    rw [h2]
    cases J₁ with
    | nil => exact absurd rfl hJ1
    | cons a b => simp
  have hcand : braceCandidate J = some J := by
    unfold braceCandidate
    rw [hfind, hrfind]
    show (if 0 < J.length - 1 then
      some ((J.drop 0).take (J.length - 1 + 1 - 0)) else none) = some J
    rw [if_pos (by omega)]
    have harith : J.length - 1 + 1 - 0 = J.length := by omega
    rw [List.drop_zero, harith, List.take_length]
  unfold braceIsolate
  rw [hcand]
  show (if (parseJson J).isSome = true then J else J) = J
  split <;> rfl

theorem stripFence_of_brace {J J₁ : Str} (h2 : J = '\x7b' :: J₁)
    (h3 : J.getLast? = some '\x7d') : stripFence J = J := by
  obtain ⟨u, hrev⟩ := rev_cons_of_getLast h3
  have hstrip : pyStrip J = J :=
    pyStrip_eq_self h2 hrev (by decide) (by decide)
  have hpre : pyStartsWith fenceOpenTag J = false := by
    have e0 : fenceOpenTag = '`' :: lit "``json" := rfl
    rw [e0, h2]
    simp [pyStartsWith]
  unfold stripFence
  rw [hstrip, hpre]
  rfl

theorem normalizeResponse_of_clean_object {J J₁ : Str}
    (h1 : findSub thinkEndTag J = none) (h2 : J = '\x7b' :: J₁)
    (h3 : J.getLast? = some '\x7d') :
    normalizeResponse J = J := by
  unfold normalizeResponse
  rw [stripThink_of_no_end h1, stripFence_of_brace h2 h3,
    braceIsolate_of_object h2 h3]

theorem pyStrip_inner_line {J J₁ : Str} (h2 : J = '\x7b' :: J₁)
    (h3 : J.getLast? = some '\x7d') :
    pyStrip ('\n' :: (J ++ ['\n'])) = J := by
  obtain ⟨u, hrevJ⟩ := rev_cons_of_getLast h3
  have hl1 : pyLstrip ('\n' :: (J ++ ['\n'])) = J ++ ['\n'] := by
    unfold pyLstrip
    rw [List.dropWhile_cons]
    rw [show isPySpace '\n' = true from rfl, if_pos rfl]
    rw [h2, List.cons_append, List.dropWhile_cons]
    rw [show isPySpace '\x7b' = false from rfl]
    simp
  have hr1 : pyRstrip (J ++ ['\n']) = J := by
    unfold pyRstrip
    rw [List.reverse_append]
    rw [show (['\n'] : Str).reverse = ['\n'] from rfl, List.singleton_append]
    rw [List.dropWhile_cons, show isPySpace '\n' = true from rfl, if_pos rfl]
    rw [hrevJ, List.dropWhile_cons, show isPySpace '\x7d' = false from rfl]
    simp only [Bool.false_eq_true, if_false]
    rw [← hrevJ, List.reverse_reverse]
  unfold pyStrip
  rw [hl1, hr1]

theorem stripFence_fencedWrap {J J₁ : Str} (h2 : J = '\x7b' :: J₁)
    (h3 : J.getLast? = some '\x7d') :
    stripFence (fencedWrap J) = J := by
  have hhead : fencedWrap J = '`' :: ((lit "``json\n" ++ J) ++ lit "\n```") := by
    unfold fencedWrap
    rw [show lit "```json\n" = '`' :: lit "``json\n" from rfl]
    rw [List.cons_append, List.cons_append]
  have hrev : (fencedWrap J).reverse =
      '`' :: (lit "``\n" ++ (J.reverse ++ (lit "```json\n").reverse)) := by
    unfold fencedWrap
    rw [List.reverse_append, List.reverse_append]
    rw [show (lit "\n```").reverse = '`' :: lit "``\n" from rfl]
    simp [List.append_assoc]
  have hstrip : pyStrip (fencedWrap J) = fencedWrap J :=
    pyStrip_eq_self hhead hrev (by decide) (by decide)
  have hshape1 : fencedWrap J = fenceOpenTag ++ ('\n' :: (J ++ lit "\n```")) := by
    unfold fencedWrap
    rw [show lit "```json\n" = fenceOpenTag ++ ['\n'] from rfl]
    simp [List.append_assoc]
  have hpre : pyStartsWith fenceOpenTag (fencedWrap J) = true := by
    rw [hshape1]
    exact pyStartsWith_self_append _ _
  have hdrop : (fencedWrap J).drop 7 = '\n' :: (J ++ lit "\n```") := by
    rw [hshape1, show (7 : Nat) = fenceOpenTag.length from rfl, List.drop_left]
  have hend : pyEndsWith fenceCloseTag ('\n' :: (J ++ lit "\n```")) = true := by
    unfold pyEndsWith
    have hrevt : ('\n' :: (J ++ lit "\n```")).reverse =
        fenceCloseTag.reverse ++ (['\n'] ++ (J.reverse ++ ['\n'])) := by
      rw [List.reverse_cons, List.reverse_append]
      rw [show (lit "\n```").reverse = fenceCloseTag.reverse ++ ['\n'] from rfl]
      simp [List.append_assoc]
    rw [hrevt]
    exact pyStartsWith_self_append _ _
  have hshape2 : '\n' :: (J ++ lit "\n```") =
      ('\n' :: (J ++ ['\n'])) ++ fenceCloseTag := by
    rw [show lit "\n```" = ['\n'] ++ fenceCloseTag from rfl]
    simp [List.append_assoc]
  have htake : ('\n' :: (J ++ lit "\n```")).take
      (('\n' :: (J ++ lit "\n```")).length - 3) = '\n' :: (J ++ ['\n']) := by
    rw [hshape2]
    have hl : (('\n' :: (J ++ ['\n'])) ++ fenceCloseTag).length - 3 =
        ('\n' :: (J ++ ['\n'])).length := by
      simp [fenceCloseTag, lit]
    rw [hl]
    exact List.take_left' rfl
  unfold stripFence
  rw [hstrip, hpre, if_pos rfl]
  rw [hdrop]
  show pyStrip (if pyEndsWith fenceCloseTag ('\n' :: (J ++ lit "\n```")) = true
    then List.take (('\n' :: (J ++ lit "\n```")).length - 3) ('\n' :: (J ++ lit "\n```"))
    else '\n' :: (J ++ lit "\n```")) = J
  rw [hend, if_pos rfl, htake]
  exact pyStrip_inner_line h2 h3

theorem normalizeResponse_fencedWrap {J J₁ : Str}
    (h1 : findSub thinkEndTag (fencedWrap J) = none) (h2 : J = '\x7b' :: J₁)
    (h3 : J.getLast? = some '\x7d') :
    normalizeResponse (fencedWrap J) = J := by
  unfold normalizeResponse
  rw [stripThink_of_no_end h1, stripFence_fencedWrap h2 h3]
  have hiso := braceIsolate_of_object h2 h3
  rw [hiso]

/-- Claim C8: a raw completion that is a well-formed JSON object wrapped in
a markdown json fence normalizes to exactly the inner object text: the
fence markers are removed and the result (hence the classifier's status
and display for every attribute key) coincides with that of the unfenced
equivalent. The hypotheses say the payload starts with an opening brace,
ends with a closing brace, parses as JSON, and contains no
reasoning-block end marker. -/
theorem fenced_equivalence :
    ∀ (J J₁ : Str) (v : Json),
      J = '\x7b' :: J₁ →
      J.getLast? = some '\x7d' →
      parseJson J = some v →
      findSub thinkEndTag (fencedWrap J) = none →
      findSub thinkEndTag J = none →
      normalizeResponse (fencedWrap J) = J ∧
      normalizeResponse J = J ∧
      (∀ k, classifyCard k (normalizeResponse (fencedWrap J)) =
        classifyCard k (normalizeResponse J)) := by
  intro J J₁ v h2 h3 _h4 hf1 hf2
  have ha : normalizeResponse (fencedWrap J) = J :=
    normalizeResponse_fencedWrap hf1 h2 h3
  have hb : normalizeResponse J = J :=
    normalizeResponse_of_clean_object hf2 h2 h3
  exact ⟨ha, hb, fun k => by rw [ha, hb]⟩

/-- Witness for C8 at a concrete fenced single-key object. -/
theorem fenced_equivalence_witness :
    normalizeResponse (fencedWrap (lit "\x7b\"X\": \"1\"\x7d")) =
      lit "\x7b\"X\": \"1\"\x7d" ∧
    normalizeResponse (lit "\x7b\"X\": \"1\"\x7d") = lit "\x7b\"X\": \"1\"\x7d" ∧
    classifyCard (lit "X") (normalizeResponse (fencedWrap (lit "\x7b\"X\": \"1\"\x7d"))) =
      classifyCard (lit "X") (normalizeResponse (lit "\x7b\"X\": \"1\"\x7d")) := by
  have h := fenced_equivalence (lit "\x7b\"X\": \"1\"\x7d") (lit "\"X\": \"1\"\x7d")
    (Json.obj [(lit "X", Json.str (lit "1"))]) rfl rfl rfl rfl rfl
  exact ⟨h.1, h.2.1, h.2.2 (lit "X")⟩

end Rag
